import Mathlib

/-!
Verification of the jim_ga_bang bag-storage reservation backend.

The Python sources are shallowly embedded here:
* `database/connections.py` — the generic Beanie CRUD facade (`Database`),
  modelled both generically (documents as field/value association lists, for
  the partial-update semantics) and on the typed domain collections;
* `models/reservations.py`, `models/users.py` — the document schemas;
* `routes/reservations.py` — the Service/Booking handlers;
* `routes/users.py` — host signup;
* `auth/jwt_handler.py` — token encode/verify.

Conventions of the embedding:
* MongoDB object ids are `Nat`; a collection is a `List (Nat × α)` plus a
  fresh-id counter.  `document.create()` appends under the counter.
* Python `None` is `Option.none`; a handler expression that would raise an
  unhandled `AttributeError`/`TypeError`/`KeyError` (surfacing as HTTP 500)
  is an explicit result constructor.
* Integers are `Int` (Python ints are unbounded and the capacity arithmetic
  may go negative).  Timestamps are whole seconds as `Int`.
-/

namespace JimGaBang

/-! ### Generic documents and `Database.update` (database/connections.py) -/

/-- A BSON-style field value as stored in a document. -/
inductive Value where
  | str (s : String)
  | int (n : Int)
  | strList (l : List String)
  | idList (l : List Nat)
  deriving Repr, DecidableEq

/-- A stored document: association list from field name to value. -/
abbrev Doc := List (String × Value)

/-- `body.model_dump()` of a pydantic update schema: every declared field of
the partial, `none` for a field that was null/absent in the request. -/
abbrev UpdateBody := List (String × Option Value)

/-- Value of field `f` in a stored document. -/
def lookupField (d : Doc) (f : String) : Option Value :=
  (d.find? (fun p => p.1 == f)).map Prod.snd

/-- The dumped value of field `f` in the partial body: `none` when the schema
has no such field, `some none` when the field was null/absent. -/
def lookupBodyField (b : UpdateBody) (f : String) : Option (Option Value) :=
  (b.find? (fun p => p.1 == f)).map Prod.snd

/-- `des_body = \x7bk: v for k, v in des_body.items() if v is not None\x7d`:
only the non-null fields of the dumped body survive. -/
def nonNullFields (b : UpdateBody) : List (String × Value) :=
  b.filterMap (fun p => p.2.map (fun v => (p.1, v)))

/-- Effect of `$set`-ting a single field on a document. -/
def setField (d : Doc) (f : String) (v : Value) : Doc :=
  if d.any (fun p => p.1 == f) then
    d.map (fun p => if p.1 == f then (f, v) else p)
  else d ++ [(f, v)]

/-- Effect of the whole `$set` update query on a document. -/
def applySet (d : Doc) (upds : List (String × Value)) : Doc :=
  upds.foldl (fun acc p => setField acc p.1 p.2) d

/-- A generic collection: object id to document. -/
abbrev Collection := List (Nat × Doc)

/-- `Database.get`: the record with the given id (`False`, here `none`, when
absent). -/
def collGet (c : Collection) (id : Nat) : Option Doc :=
  (c.find? (fun p => p.1 == id)).map Prod.snd

/-- `Database.update(id, body)`: dump the body, drop the null fields, `$set`
the remainder on the stored document; return `False` (here `none`) and leave
the collection untouched when no document has the id.  Returns the new
collection paired with the updated document. -/
def dbUpdate (c : Collection) (id : Nat) (body : UpdateBody) : Collection × Option Doc :=
  match collGet c id with
  | none => (c, none)
  | some doc =>
    let newDoc := applySet doc (nonNullFields body)
    (c.map (fun p => if p.1 == id then (id, newDoc) else p), some newDoc)

/-! ### Typed domain documents (models/reservations.py, models/users.py)

`latitude`/`longitude` (floats never read by any handler modelled here) are
omitted.  `creator` is `Optional[EmailStr] = None` in the schema but every
handler overwrites it from the authenticated principal before persisting, so
stored documents carry a string.  `bookings` is `Optional[List] = None` in
the schema; it is modelled as the list it holds. -/

/-- `Service` document. -/
structure Service where
  creator : String
  service_name : String
  category : String
  address : String
  service_time : String
  service_date : List String
  available_bag : Int
  total_available_bag : Int
  bookings : List Nat
  deriving Repr, DecidableEq

/-- `Booking` document (`confirm` defaults to "pending" in the schema). -/
structure Booking where
  creator : String
  booking_date : List String
  booking_bag : Int
  confirm : String
  service : Nat
  deriving Repr, DecidableEq

/-- `BookingUpdate` partial schema: `booking_date` and `booking_bag`, each
nullable. -/
structure BookingUpdate where
  booking_date : Option (List String)
  booking_bag : Option Int
  deriving Repr, DecidableEq

/-- `BookingConfirmUpdate` partial schema: nullable `confirm`. -/
structure BookingConfirmUpdate where
  confirm : Option String
  deriving Repr, DecidableEq

/-- `Host` document. -/
structure HostDoc where
  email : String
  password : String
  host_name : String
  deriving Repr, DecidableEq

/-! ### The typed stores and the `Database` facade on them -/

/-- Record with the given id in a typed collection (`Database.get`; `False`,
here `none`, when absent). -/
def idGet {α : Type} (l : List (Nat × α)) (id : Nat) : Option α :=
  (l.find? (fun p => p.1 == id)).map Prod.snd

/-- Replace the document stored under `id` (the `$set` of a full document all
of whose dumped fields are non-null). -/
def idSet {α : Type} (l : List (Nat × α)) (id : Nat) (a : α) : List (Nat × α) :=
  l.map (fun p => if p.1 == id then (id, a) else p)

/-- The reservation database: the `services` and `bookings` collections plus
the fresh-object-id counter. -/
structure ResDB where
  services : List (Nat × Service)
  bookings : List (Nat × Booking)
  nextId : Nat
  deriving Repr, DecidableEq

/-- `service_database.get`. -/
def getService (st : ResDB) (id : Nat) : Option Service :=
  idGet st.services id

/-- `booking_database.get`. -/
def getBooking (st : ResDB) (id : Nat) : Option Booking :=
  idGet st.bookings id

/-- `Database.save` on the services collection: `await document.create()`
persists the document under a fresh id, then the bare `return` hands `None`
back to the caller.  The second component is that `None` return value. -/
def saveService (st : ResDB) (s : Service) : ResDB × Option (Nat × Service) :=
  ({ st with services := st.services ++ [(st.nextId, s)], nextId := st.nextId + 1 }, none)

/-- `Database.save` on the bookings collection; returns `None` likewise. -/
def saveBooking (st : ResDB) (b : Booking) : ResDB × Option (Nat × Booking) :=
  ({ st with bookings := st.bookings ++ [(st.nextId, b)], nextId := st.nextId + 1 }, none)

/-- `Database.update(service.id, service)` with a full `Service` document:
every dumped field is non-null, so the `$set` replaces the stored document
wholesale; `False` (here `none`) when the id is absent. -/
def updateServiceFull (st : ResDB) (id : Nat) (s : Service) : ResDB × Option Service :=
  match getService st id with
  | none => (st, none)
  | some _ => ({ st with services := idSet st.services id s }, some s)

/-- Merge the non-null fields of a `BookingUpdate` into a stored booking. -/
def mergeBookingUpdate (b : Booking) (body : BookingUpdate) : Booking :=
  { b with
    booking_date := body.booking_date.getD b.booking_date,
    booking_bag := body.booking_bag.getD b.booking_bag }

/-- `booking_database.update(id, body)` with a `BookingUpdate` body. -/
def updateBookingWith (st : ResDB) (id : Nat) (body : BookingUpdate) : ResDB × Option Booking :=
  match getBooking st id with
  | none => (st, none)
  | some b =>
    let merged := mergeBookingUpdate b body
    ({ st with bookings := idSet st.bookings id merged }, some merged)

/-- Merge the non-null fields of a `BookingConfirmUpdate` into a stored
booking: only `confirm`, and only when it is non-null. -/
def mergeBookingConfirm (b : Booking) (body : BookingConfirmUpdate) : Booking :=
  { b with confirm := body.confirm.getD b.confirm }

/-- `booking_database.update(id, body)` with a `BookingConfirmUpdate` body. -/
def updateBookingConfirmWith (st : ResDB) (id : Nat) (body : BookingConfirmUpdate) :
    ResDB × Option Booking :=
  match getBooking st id with
  | none => (st, none)
  | some b =>
    let merged := mergeBookingConfirm b body
    ({ st with bookings := idSet st.bookings id merged }, some merged)

/-- `booking_database.delete(id)`: fetch, `False` when absent, else delete. -/
def deleteBooking (st : ResDB) (id : Nat) : ResDB × Bool :=
  match getBooking st id with
  | none => (st, false)
  | some _ => ({ st with bookings := st.bookings.filter (fun p => !(p.1 == id)) }, true)

/-! ### Service and Booking route handlers (routes/reservations.py) -/

/-- HTTP-level outcome of `POST /service/new` (`create_service`). -/
inductive CreateServiceResult where
  | error500
  | success (service : Service)
  deriving Repr, DecidableEq

/-- `create_service`: stamp `creator` from the authenticated Host, persist,
then test the `save` result against `None`.  `Database.save` returns `None`,
so the handler raises HTTP 500 "An error occurred while saving the service";
the `success` branch transcribes the source's unreachable return. -/
def create_service (st : ResDB) (hostEmail : String) (body : Service) :
    ResDB × CreateServiceResult :=
  let body := { body with creator := hostEmail }
  let saved := saveService st body
  match saved.2 with
  | none => (saved.1, .error500)
  | some result => (saved.1, .success result.2)

/-- HTTP-level outcome of `POST /booking/new` (`create_booking`).
`attributeError` is the unhandled `AttributeError` (HTTP 500) raised by
`service.bookings.append(result.id)` when `result` is `None`. -/
inductive CreateBookingResult where
  | serviceNotFound
  | capacityExceeded
  | attributeError
  | success (booking : Booking) (service_available_bag : Int)
  deriving Repr, DecidableEq

/-- `create_booking`: stamp `creator`, load the referenced Service (404 when
absent), reject when `booking_bag > available_bag`, persist the booking, then
decrement the capacity, append `result.id`, and persist the Service.  Since
`Database.save` returns `None`, `result.id` raises; the `some` branch
transcribes the source's unreachable continuation. -/
def create_booking (st : ResDB) (clientEmail : String) (body : Booking) :
    ResDB × CreateBookingResult :=
  let body := { body with creator := clientEmail }
  match getService st body.service with
  | none => (st, .serviceNotFound)
  | some service =>
    if body.booking_bag > service.available_bag then
      (st, .capacityExceeded)
    else
      let saved := saveBooking st body
      match saved.2 with
      | none => (saved.1, .attributeError)
      | some result =>
        let service1 := { service with
          available_bag := service.available_bag - body.booking_bag,
          bookings := service.bookings ++ [result.1] }
        let upd := updateServiceFull saved.1 body.service service1
        (upd.1, .success result.2 service1.available_bag)

/-- HTTP-level outcome of `PUT /booking/\x7bbooking_id\x7d` (`update_booking`).
`typeError` is the unhandled `TypeError` of `None - int` when the body's
`booking_bag` is null. -/
inductive UpdateBookingResult where
  | bookingNotFound
  | notAllowed
  | serviceNotFound
  | typeError
  | capacityExceeded
  | bookingNotUpdated
  | success (updated : Booking) (service_available_bag : Int)
  deriving Repr, DecidableEq

/-- `update_booking` (owning Client): fetch booking (404), ownership check
(400), fetch Service (404), `bag_difference = body.booking_bag -
booking.booking_bag`, reject when positive and above `available_bag`,
else `available_bag -= bag_difference`, persist Service, persist the
booking update. -/
def update_booking (st : ResDB) (clientEmail : String) (bookingId : Nat)
    (body : BookingUpdate) : ResDB × UpdateBookingResult :=
  match getBooking st bookingId with
  | none => (st, .bookingNotFound)
  | some booking =>
    if booking.creator ≠ clientEmail then (st, .notAllowed)
    else
      match getService st booking.service with
      | none => (st, .serviceNotFound)
      | some service =>
        match body.booking_bag with
        | none => (st, .typeError)
        | some newBag =>
          let bag_difference := newBag - booking.booking_bag
          if bag_difference > 0 ∧ bag_difference > service.available_bag then
            (st, .capacityExceeded)
          else
            let service1 := { service with
              available_bag := service.available_bag - bag_difference }
            let updService := updateServiceFull st booking.service service1
            let updBooking := updateBookingWith updService.1 bookingId body
            match updBooking.2 with
            | none => (updBooking.1, .bookingNotUpdated)
            | some updated => (updBooking.1, .success updated service1.available_bag)

/-- HTTP-level outcome of `DELETE /booking/\x7bbooking_id\x7d`
(`delete_booking_bag`).  `attributeError` is the unhandled dereference of the
`False` returned by `service_database.get` when the parent Service is gone
(the handler has no existence check on the Service). -/
inductive DeleteBookingResult where
  | bookingNotFound
  | notAllowed
  | attributeError
  | success (service_available_bag : Int)
  deriving Repr, DecidableEq

/-- `delete_booking_bag` (owning Client): fetch booking (404), ownership
check (400), `available_bag += booking.booking_bag`, persist Service, delete
the booking. -/
def delete_booking_bag (st : ResDB) (clientEmail : String) (bookingId : Nat) :
    ResDB × DeleteBookingResult :=
  match getBooking st bookingId with
  | none => (st, .bookingNotFound)
  | some booking =>
    if booking.creator ≠ clientEmail then (st, .notAllowed)
    else
      match getService st booking.service with
      | none => (st, .attributeError)
      | some service =>
        let service1 := { service with
          available_bag := service.available_bag + booking.booking_bag }
        let updService := updateServiceFull st booking.service service1
        let del := deleteBooking updService.1 bookingId
        (del.1, .success service1.available_bag)

/-- HTTP-level outcome of `PUT /booking/\x7bbooking_id\x7d/status`
(`update_booking_status`).  `attributeError` is the unhandled dereference
`booking.creator` on the `False` returned for a missing booking (the handler
has no existence check). -/
inductive UpdateStatusResult where
  | attributeError
  | notAllowed
  | serviceNotFound
  | statusNotUpdated
  | success (updated : Booking) (service_available_bag : Int)
  deriving Repr, DecidableEq

/-- `update_booking_status` (authenticated as Host): fetch booking, reject
unless `booking.creator == current_user.email` (note: `booking.creator` is
the Client who made the booking, not the parent Service's creator), fetch
Service (404), return capacity exactly on a `pending` booking being set to
`cancelled`, persist Service, persist the `confirm` value on the booking. -/
def update_booking_status (st : ResDB) (hostEmail : String) (bookingId : Nat)
    (body : BookingConfirmUpdate) : ResDB × UpdateStatusResult :=
  match getBooking st bookingId with
  | none => (st, .attributeError)
  | some booking =>
    if booking.creator ≠ hostEmail then (st, .notAllowed)
    else
      match getService st booking.service with
      | none => (st, .serviceNotFound)
      | some service =>
        let service1 :=
          if booking.confirm = "pending" ∧ body.confirm = some "cancelled" then
            { service with available_bag := service.available_bag + booking.booking_bag }
          else service
        let updService := updateServiceFull st booking.service service1
        let updBooking := updateBookingConfirmWith updService.1 bookingId body
        match updBooking.2 with
        | none => (updBooking.1, .statusNotUpdated)
        | some updated => (updBooking.1, .success updated service1.available_bag)

/-! ### Host signup (routes/users.py) -/

/-- The hosts collection plus the fresh-id counter. -/
structure HostStore where
  hosts : List (Nat × HostDoc)
  nextId : Nat
  deriving Repr, DecidableEq

/-- `Host.find_one(Host.email == e)`. -/
def findHostByEmail (st : HostStore) (email : String) : Option HostDoc :=
  (st.hosts.find? (fun p => p.2.email == email)).map Prod.snd

/-- `HashPassword.create_hash` wraps passlib's bcrypt; the digest itself is
never inspected by any handler modelled here, so the external call is stood
in for by a total tagging function. -/
def create_hash (password : String) : String :=
  "bcrypt$" ++ password

/-- `Database.save` on the hosts collection; persists, returns `None`. -/
def saveHost (st : HostStore) (h : HostDoc) : HostStore × Option (Nat × HostDoc) :=
  ({ st with hosts := st.hosts ++ [(st.nextId, h)], nextId := st.nextId + 1 }, none)

/-- HTTP-level outcome of `POST /host/signup` (`sign_new_host_up`).
`attributeError` is the unhandled `result.dict(exclude=...)` on the `None`
returned by `Database.save`. -/
inductive SignupResult where
  | conflict
  | attributeError
  | success (host : HostDoc)
  deriving Repr, DecidableEq

/-- `sign_new_host_up`: 409 when a host with the email exists, else hash the
password, persist, and build the response from the `save` result — which is
`None`, so `result.dict()` raises; the `success` branch transcribes the
source's unreachable return (host document minus the password field). -/
def sign_new_host_up (st : HostStore) (current_user : HostDoc) : HostStore × SignupResult :=
  match findHostByEmail st current_user.email with
  | some _ => (st, .conflict)
  | none =>
    let current_user := { current_user with password := create_hash current_user.password }
    let saved := saveHost st current_user
    match saved.2 with
    | none => (saved.1, .attributeError)
    | some result => (saved.1, .success result.2)

/-! ### Token codec (auth/jwt_handler.py)

A token is modelled as the signed claim set together with the key it was
signed with; `jwt.decode` succeeds exactly when the verification key matches
the signing key (the HS256 MAC check), and any structurally invalid token
string is subsumed in the mismatched-key case. -/

/-- The claim set: the `user` and `expires` claims, each possibly absent. -/
structure TokenPayload where
  user : Option String
  expires : Option Int
  deriving Repr, DecidableEq

/-- A signed token. -/
structure Token where
  payload : TokenPayload
  signingKey : String
  deriving Repr, DecidableEq

/-- `settings.SECRET_KEY`, the process-wide signing secret. -/
def settingsSecretKey : String := "SECRET_KEY"

/-- `jwt.encode(payload, key, algorithm="HS256")`. -/
def jwtEncode (payload : TokenPayload) (key : String) : Token :=
  ⟨payload, key⟩

/-- `jwt.decode(token, key, algorithms=["HS256"])`: the claims when the MAC
verifies, `none` for the `JWTError` cases. -/
def jwtDecode (t : Token) (key : String) : Option TokenPayload :=
  if t.signingKey == key then some t.payload else none

/-- Failure cases of `verify_host_access_token` / `verify_client_access_token`:
`invalidJWT` — `JWTError` caught, 400 "Invalid JWTError refresh token";
`noTokenSupplied` — `expires` absent, 400 "No access token supplied";
`tokenExpired` — 403 "Refresh token expired";
`keyError` — `data["user"]` with no `user` claim, unhandled (HTTP 500);
`invalidAccessToken` — principal lookup failed, 400 "Invalid access token". -/
inductive VerifyError where
  | invalidJWT
  | noTokenSupplied
  | tokenExpired
  | keyError
  | invalidAccessToken
  deriving Repr, DecidableEq

/-- `create_access_token(user)`: claims `\x7buser, expires: time.time() +
3600\x7d` signed with the shared secret. -/
def create_access_token (user : String) (now : Int) : Token :=
  jwtEncode { user := some user, expires := some (now + 3600) } settingsSecretKey

/-- `create_refresh_token(user)`: same shape, 7-day expiry. -/
def create_refresh_token (user : String) (now : Int) : Token :=
  jwtEncode { user := some user, expires := some (now + 3600 * 24 * 7) } settingsSecretKey

/-- Shared body of the four verify functions, which differ only in the
principal collection `find_one` consults (abstracted to `principalExists`):
decode, check `expires` is present, check `utcnow() > expires`, look up the
subject, return the claims. -/
def verify_access_token_with (principalExists : String → Bool) (token : Token)
    (now : Int) : Except VerifyError TokenPayload :=
  match jwtDecode token settingsSecretKey with
  | none => .error .invalidJWT
  | some data =>
    match data.expires with
    | none => .error .noTokenSupplied
    | some expire =>
      if now > expire then .error .tokenExpired
      else
        match data.user with
        | none => .error .keyError
        | some u =>
          if principalExists u then .ok data
          else .error .invalidAccessToken

/-- Whether the hosts collection holds a document with the email. -/
def hostEmailExists (hosts : List HostDoc) (email : String) : Bool :=
  hosts.any (fun h => h.email == email)

/-- `verify_host_access_token`: the shared verification against the `Host`
collection. -/
def verify_host_access_token (hosts : List HostDoc) (token : Token) (now : Int) :
    Except VerifyError TokenPayload :=
  verify_access_token_with (hostEmailExists hosts) token now

/-! ### Concrete fixtures used by scenario theorems and witnesses -/

/-- A Service as in the schema example: capacity 5, owned by the host. -/
def fixtureService : Service :=
  { creator := "host@gmail.com", service_name := "cafe jimgabang", category := "cafe",
    address := "Gangnam 123-45", service_time := "09:00 ~ 18:00",
    service_date := ["2023-10-13", "2023-10-14"],
    available_bag := 5, total_available_bag := 5, bookings := [] }

/-- A reservation database holding just `fixtureService` under id 0. -/
def fixtureDB : ResDB :=
  { services := [(0, fixtureService)], bookings := [], nextId := 1 }

/-- A booking request from the client against service 0. -/
def fixtureBookingReq (bag : Int) : Booking :=
  { creator := "client@gmail.com", booking_date := ["2023-10-13"],
    booking_bag := bag, confirm := "pending", service := 0 }

/-- The database after the booking of `fixtureBookingReq 2` was persisted. -/
def fixtureBooked : ResDB :=
  { services := [(0, fixtureService)], bookings := [(1, fixtureBookingReq 2)], nextId := 2 }

/-- A two-field stored document. -/
def fixtureDoc : Doc := [("a", Value.int 1), ("b", Value.str "x")]

/-- A collection holding `fixtureDoc` under id 0. -/
def fixtureColl : Collection := [(0, fixtureDoc)]

/-- A partial body setting field "a" and leaving "b" null. -/
def fixtureBody : UpdateBody := [("a", some (Value.int 5)), ("b", none)]

/-! ### Association-list lemmas for the generic `$set` semantics -/

theorem find_overwrite_other (l : List (String × Value)) (f g : String) (v : Value)
    (h : f ≠ g) :
    (l.map (fun p => if p.1 == f then (f, v) else p)).find? (fun p => p.1 == g) =
      l.find? (fun p => p.1 == g) := by
  induction l with
  | nil => rfl
  | cons hd tl ih =>
    by_cases hhd : hd.1 = f
    · have h1 : (hd.1 == f) = true := by simp [hhd]
      have h2 : ((f : String) == g) = false := by simp [h]
      have h3 : (hd.1 == g) = false := by simp [hhd, h]
      simp only [List.map_cons, List.find?_cons, h1, h2, h3, if_true]
      exact ih
    · have h1 : (hd.1 == f) = false := by simp [hhd]
      simp only [List.map_cons, List.find?_cons, h1, Bool.false_eq_true, if_false]
      cases h2 : (hd.1 == g) with
      | true => rfl
      | false => exact ih

theorem setField_cons_neg (hd : String × Value) (tl : Doc) (f : String) (v : Value)
    (h : hd.1 ≠ f) :
    setField (hd :: tl) f v = hd :: setField tl f v := by
  by_cases ha : (tl.any fun p => p.1 == f) = true
  · simp [setField, h, ha]
  · simp [setField, h, ha]

theorem lookupField_cons_self (hd : String × Value) (tl : Doc) (g : String)
    (h : hd.1 = g) : lookupField (hd :: tl) g = some hd.2 := by
  unfold lookupField
  rw [List.find?_cons]
  simp [h]

theorem lookupField_cons_ne (hd : String × Value) (tl : Doc) (g : String)
    (h : hd.1 ≠ g) : lookupField (hd :: tl) g = lookupField tl g := by
  unfold lookupField
  rw [List.find?_cons]
  simp [beq_false_of_ne h]

theorem lookupField_setField_self (d : Doc) (f : String) (v : Value) :
    lookupField (setField d f v) f = some v := by
  induction d with
  | nil =>
    simp [setField, lookupField]
  | cons hd tl ih =>
    by_cases hhd : hd.1 = f
    · have hany : ((hd :: tl).any fun p => p.1 == f) = true := by
        simp [List.any_cons, hhd]
      unfold setField
      rw [if_pos hany]
      have hmap : (hd :: tl).map (fun p => if p.1 == f then (f, v) else p) =
          (f, v) :: tl.map (fun p => if p.1 == f then (f, v) else p) := by
        simp [hhd]
      rw [hmap, lookupField_cons_self _ _ _ rfl]
    · rw [setField_cons_neg hd tl f v hhd, lookupField_cons_ne hd _ f hhd]
      exact ih

theorem lookupField_setField_other (d : Doc) (f g : String) (v : Value) (h : f ≠ g) :
    lookupField (setField d f v) g = lookupField d g := by
  induction d with
  | nil =>
    simp [setField, lookupField, beq_false_of_ne h]
  | cons hd tl ih =>
    by_cases hhd : hd.1 = f
    · have hany : ((hd :: tl).any fun p => p.1 == f) = true := by
        simp [List.any_cons, hhd]
      unfold setField
      rw [if_pos hany]
      have hmap : (hd :: tl).map (fun p => if p.1 == f then (f, v) else p) =
          (f, v) :: tl.map (fun p => if p.1 == f then (f, v) else p) := by
        simp [hhd]
      rw [hmap, lookupField_cons_ne _ _ _ h,
        lookupField_cons_ne hd tl g (by rw [hhd]; exact h)]
      unfold lookupField
      rw [find_overwrite_other tl f g v h]
    · rw [setField_cons_neg hd tl f v hhd]
      by_cases hg : hd.1 = g
      · rw [lookupField_cons_self _ _ _ hg, lookupField_cons_self _ _ _ hg]
      · rw [lookupField_cons_ne _ _ _ hg, lookupField_cons_ne _ _ _ hg]
        exact ih

theorem lookupField_eq_none_of_not_mem (l : List (String × Value)) (g : String)
    (h : g ∉ l.map Prod.fst) : lookupField l g = none := by
  induction l with
  | nil => rfl
  | cons hd tl ih =>
    have hne : hd.1 ≠ g := by
      intro he
      exact h (by simp [he])
    rw [lookupField_cons_ne _ _ _ hne]
    exact ih (by intro hm; exact h (by simp [hm]))

theorem lookupField_applySet (d : Doc) (upds : List (String × Value)) (g : String)
    (h : (upds.map Prod.fst).Nodup) :
    lookupField (applySet d upds) g =
      match lookupField upds g with
      | some v => some v
      | none => lookupField d g := by
  induction upds generalizing d with
  | nil => rfl
  | cons hd tl ih =>
    obtain ⟨hk, htl⟩ := List.nodup_cons.mp h
    have hstep : applySet d (hd :: tl) = applySet (setField d hd.1 hd.2) tl := rfl
    rw [hstep, ih (setField d hd.1 hd.2) htl]
    by_cases hg : hd.1 = g
    · have htlnone : lookupField tl g = none :=
        lookupField_eq_none_of_not_mem tl g (by rw [← hg]; exact hk)
      rw [htlnone, lookupField_cons_self hd tl g hg]
      show lookupField (setField d hd.1 hd.2) g = some hd.2
      rw [hg]
      exact lookupField_setField_self d g hd.2
    · rw [lookupField_cons_ne hd tl g hg, lookupField_setField_other d hd.1 g hd.2 hg]

theorem keys_nonNullFields_sublist (b : UpdateBody) :
    ((nonNullFields b).map Prod.fst).Sublist (b.map Prod.fst) := by
  induction b with
  | nil => simp [nonNullFields]
  | cons hd tl ih =>
    cases hv : hd.2 with
    | none =>
      have : nonNullFields (hd :: tl) = nonNullFields tl := by
        simp [nonNullFields, hv]
      rw [this, List.map_cons]
      exact ih.cons hd.1
    | some v =>
      have : nonNullFields (hd :: tl) = (hd.1, v) :: nonNullFields tl := by
        simp [nonNullFields, hv]
      rw [this, List.map_cons, List.map_cons]
      exact ih.cons₂ hd.1

theorem lookupField_nonNullFields (b : UpdateBody) (g : String)
    (h : (b.map Prod.fst).Nodup) :
    lookupField (nonNullFields b) g =
      match lookupBodyField b g with
      | some (some v) => some v
      | _ => none := by
  induction b with
  | nil => rfl
  | cons hd tl ih =>
    obtain ⟨hk, htl⟩ := List.nodup_cons.mp h
    by_cases hg : hd.1 = g
    · have hbf : lookupBodyField (hd :: tl) g = some hd.2 := by
        unfold lookupBodyField
        rw [List.find?_cons]
        simp [hg]
      rw [hbf]
      cases hv : hd.2 with
      | none =>
        have hnn : nonNullFields (hd :: tl) = nonNullFields tl := by
          simp [nonNullFields, hv]
        rw [hnn]
        have hnotin : g ∉ (nonNullFields tl).map Prod.fst := by
          intro hm
          exact hk (by rw [hg]; exact (keys_nonNullFields_sublist tl).mem hm)
        exact lookupField_eq_none_of_not_mem _ g hnotin
      | some v =>
        have hnn : nonNullFields (hd :: tl) = (hd.1, v) :: nonNullFields tl := by
          simp [nonNullFields, hv]
        rw [hnn, lookupField_cons_self (hd.1, v) _ g hg]
    · have hbf : lookupBodyField (hd :: tl) g = lookupBodyField tl g := by
        unfold lookupBodyField
        rw [List.find?_cons]
        simp [beq_false_of_ne hg]
      rw [hbf]
      cases hv : hd.2 with
      | none =>
        have hnn : nonNullFields (hd :: tl) = nonNullFields tl := by
          simp [nonNullFields, hv]
        rw [hnn]
        exact ih htl
      | some v =>
        have hnn : nonNullFields (hd :: tl) = (hd.1, v) :: nonNullFields tl := by
          simp [nonNullFields, hv]
        rw [hnn, lookupField_cons_ne (hd.1, v) _ g hg]
        exact ih htl

/-- Claim C7: `Database.update` merges into the stored document exactly the
non-null fields of the partial body — a field that is null/absent in the body
keeps its stored value — and when no document has the given id it returns the
`False` sentinel (`none` here) with every stored document untouched. -/
theorem database_update_merges_nonnull (c : Collection) (id : Nat) (body : UpdateBody)
    (hnd : (body.map Prod.fst).Nodup) :
    (collGet c id = none → dbUpdate c id body = (c, none)) ∧
    (∀ doc, collGet c id = some doc →
      (dbUpdate c id body).2 = some (applySet doc (nonNullFields body)) ∧
      (∀ f, lookupField (applySet doc (nonNullFields body)) f =
        match lookupBodyField body f with
        | some (some v) => some v
        | _ => lookupField doc f)) := by
  constructor
  · intro hnone
    unfold dbUpdate
    rw [hnone]
  · intro doc hdoc
    constructor
    · unfold dbUpdate
      rw [hdoc]
    · intro f
      have hsub : ((nonNullFields body).map Prod.fst).Nodup :=
        (keys_nonNullFields_sublist body).nodup hnd
      rw [lookupField_applySet doc (nonNullFields body) f hsub,
        lookupField_nonNullFields body f hnd]
      rcases hbf : lookupBodyField body f with _ | ov
      · rfl
      · rcases ov with _ | v
        · rfl
        · rfl

/-- Witness for C7 at a concrete collection and body: field "a" (non-null in
the body) takes the new value, field "b" (null in the body) keeps the stored
one. -/
theorem database_update_merges_nonnull_witness :
    lookupField (applySet fixtureDoc (nonNullFields fixtureBody)) "a" = some (Value.int 5) ∧
    lookupField (applySet fixtureDoc (nonNullFields fixtureBody)) "b" = some (Value.str "x") := by
  have h := database_update_merges_nonnull fixtureColl 0 fixtureBody (by decide)
  have h2 := (h.2 fixtureDoc rfl).2
  exact ⟨(h2 "a").trans (by decide), (h2 "b").trans (by decide)⟩

/-! ### Typed-store lemmas -/

theorem idGet_cons_self {α : Type} (hd : Nat × α) (tl : List (Nat × α)) (id : Nat)
    (h : hd.1 = id) : idGet (hd :: tl) id = some hd.2 := by
  unfold idGet
  rw [List.find?_cons]
  simp [h]

theorem idGet_cons_ne {α : Type} (hd : Nat × α) (tl : List (Nat × α)) (id : Nat)
    (h : hd.1 ≠ id) : idGet (hd :: tl) id = idGet tl id := by
  unfold idGet
  rw [List.find?_cons]
  simp [beq_false_of_ne h]

theorem idGet_idSet_self {α : Type} (l : List (Nat × α)) (id : Nat) (a : α)
    (h : (idGet l id).isSome) : idGet (idSet l id a) id = some a := by
  induction l with
  | nil => simp [idGet] at h
  | cons hd tl ih =>
    by_cases hh : hd.1 = id
    · have htrue : (hd.1 == id) = true := by simp [hh]
      have hstep : idSet (hd :: tl) id a = (id, a) :: idSet tl id a := by
        unfold idSet
        rw [List.map_cons, htrue]
        simp
      rw [hstep, idGet_cons_self (id, a) _ id rfl]
    · have hfalse : ¬ ((hd.1 == id) = true) := by simp [beq_false_of_ne hh]
      have hstep : idSet (hd :: tl) id a = hd :: idSet tl id a := by
        unfold idSet
        rw [List.map_cons, if_neg hfalse]
      rw [hstep, idGet_cons_ne _ _ _ hh]
      rw [idGet_cons_ne _ _ _ hh] at h
      exact ih h

theorem updateServiceFull_spec (st : ResDB) (id : Nat) (s s0 : Service)
    (h : getService st id = some s0) :
    updateServiceFull st id s =
      ({ st with services := idSet st.services id s }, some s) := by
  unfold updateServiceFull
  rw [h]

theorem updateBookingWith_spec (st : ResDB) (id : Nat) (body : BookingUpdate) (b : Booking)
    (h : getBooking st id = some b) :
    updateBookingWith st id body =
      ({ st with bookings := idSet st.bookings id (mergeBookingUpdate b body) },
        some (mergeBookingUpdate b body)) := by
  unfold updateBookingWith
  rw [h]

theorem updateBookingConfirmWith_spec (st : ResDB) (id : Nat) (body : BookingConfirmUpdate)
    (b : Booking) (h : getBooking st id = some b) :
    updateBookingConfirmWith st id body =
      ({ st with bookings := idSet st.bookings id (mergeBookingConfirm b body) },
        some (mergeBookingConfirm b body)) := by
  unfold updateBookingConfirmWith
  rw [h]

theorem getService_after_idSet (st : ResDB) (id : Nat) (s s0 : Service)
    (h : getService st id = some s0) :
    idGet (idSet st.services id s) id = some s := by
  unfold getService at h
  exact idGet_idSet_self _ _ _ (by rw [h]; rfl)

theorem getBooking_after_idSet (st : ResDB) (id : Nat) (b b0 : Booking)
    (h : getBooking st id = some b0) :
    idGet (idSet st.bookings id b) id = some b := by
  unfold getBooking at h
  exact idGet_idSet_self _ _ _ (by rw [h]; rfl)

/-! ### Claim theorems on the route handlers -/

/-- Claim C3: `Database.save` returns `None` for every document it persists,
so `create_service` always hits the `result is None` branch: the service is
stored (with `creator` stamped from the authenticated Host) and the handler
raises HTTP 500 instead of returning the success message. -/
theorem create_service_always_error500 (st : ResDB) (hostEmail : String) (body : Service) :
    (saveService st body).2 = none ∧
    (create_service st hostEmail body).2 = .error500 ∧
    (create_service st hostEmail body).1 =
      { st with
        services := st.services ++ [(st.nextId, { body with creator := hostEmail })],
        nextId := st.nextId + 1 } := by
  exact ⟨rfl, rfl, rfl⟩

/-- Claim C5: for an update-booking request by the owning Client on an
existing booking whose Service exists, with a non-null new `booking_bag`:
the request is rejected with `CapacityExceeded` exactly when
`delta = new - old` is positive and exceeds `available_bag`; otherwise the
Service is persisted with `available_bag` decreased by `delta` and the
Booking update is persisted (so a decrease or unchanged quantity is never
rejected). -/
theorem update_booking_capacity_delta
    (st : ResDB) (client : String) (bid : Nat) (body : BookingUpdate)
    (booking : Booking) (service : Service) (newBag : Int)
    (hb : getBooking st bid = some booking)
    (hown : booking.creator = client)
    (hs : getService st booking.service = some service)
    (hbag : body.booking_bag = some newBag) :
    ((update_booking st client bid body).2 = .capacityExceeded ↔
      (newBag - booking.booking_bag > 0 ∧
        newBag - booking.booking_bag > service.available_bag)) ∧
    (¬(newBag - booking.booking_bag > 0 ∧
        newBag - booking.booking_bag > service.available_bag) →
      getService (update_booking st client bid body).1 booking.service =
        some { service with
          available_bag := service.available_bag - (newBag - booking.booking_bag) } ∧
      getBooking (update_booking st client bid body).1 bid =
        some (mergeBookingUpdate booking body) ∧
      (update_booking st client bid body).2 =
        .success (mergeBookingUpdate booking body)
          (service.available_bag - (newBag - booking.booking_bag))) := by
  have hb1 : getBooking
      { st with
        services :=
          idSet st.services booking.service
            { service with
              available_bag := service.available_bag - (newBag - booking.booking_bag) } }
      bid = some booking := hb
  by_cases hc : (newBag - booking.booking_bag > 0 ∧
      newBag - booking.booking_bag > service.available_bag)
  · have hrun : update_booking st client bid body = (st, .capacityExceeded) := by
      unfold update_booking
      rw [hb]
      simp only [hown, ne_eq, ne_self_iff_false, if_false]
      rw [hs, hbag]
      simp [hc]
    rw [hrun]
    constructor
    · simp [hc]
    · intro hnc
      exact absurd hc hnc
  · have hrun : update_booking st client bid body =
        ({ st with
            services :=
              idSet st.services booking.service
                { service with
                  available_bag := service.available_bag - (newBag - booking.booking_bag) },
            bookings := idSet st.bookings bid (mergeBookingUpdate booking body) },
          .success (mergeBookingUpdate booking body)
            (service.available_bag - (newBag - booking.booking_bag))) := by
      unfold update_booking
      rw [hb]
      simp only [hown, ne_eq, ne_self_iff_false, if_false]
      rw [hs, hbag]
      simp only [hc, if_false]
      rw [updateServiceFull_spec st booking.service _ service hs]
      rw [updateBookingWith_spec _ bid body booking hb1]
      simp
    rw [hrun]
    constructor
    · simp
      omega
    · intro _
      refine ⟨?_, ?_, rfl⟩
      · exact getService_after_idSet st booking.service _ service hs
      · exact getBooking_after_idSet _ bid _ booking hb1


/-- Witness for C5 on the concrete store: raising the booking from 2 to 3
bags against 5 available succeeds and reports 4 remaining. -/
theorem update_booking_capacity_delta_witness :
    (update_booking fixtureBooked "client@gmail.com" 1 ⟨none, some 3⟩).2 =
      .success (mergeBookingUpdate (fixtureBookingReq 2) ⟨none, some 3⟩) 4 := by
  have h := update_booking_capacity_delta fixtureBooked "client@gmail.com" 1 ⟨none, some 3⟩
      (fixtureBookingReq 2) fixtureService 3 (by decide) (by decide) (by decide) rfl
  have h2 := (h.2 (by decide)).2.2
  exact h2.trans (by decide)

/-- Claim C6: in the status-transition handler (given an existing booking
that passes the handler's ownership check and an existing Service),
`available_bag` grows by `booking.booking_bag` exactly when the stored
status is "pending" and the requested one is "cancelled"; for every other
pair it is unchanged, and only the `confirm` value is persisted on the
Booking (all its other fields keep their stored values). -/
theorem booking_status_capacity_return
    (st : ResDB) (host : String) (bid : Nat) (body : BookingConfirmUpdate)
    (booking : Booking) (service : Service) (newStatus : String)
    (hb : getBooking st bid = some booking)
    (hown : booking.creator = host)
    (hs : getService st booking.service = some service)
    (hc : body.confirm = some newStatus) :
    getService (update_booking_status st host bid body).1 booking.service =
      some { service with
        available_bag := service.available_bag +
          (if booking.confirm = "pending" ∧ newStatus = "cancelled"
            then booking.booking_bag else 0) } ∧
    getBooking (update_booking_status st host bid body).1 bid =
      some { booking with confirm := newStatus } ∧
    (update_booking_status st host bid body).2 =
      .success { booking with confirm := newStatus }
        (service.available_bag +
          (if booking.confirm = "pending" ∧ newStatus = "cancelled"
            then booking.booking_bag else 0)) := by
  have hsvc : (if booking.confirm = "pending" ∧ body.confirm = some "cancelled" then
        { service with available_bag := service.available_bag + booking.booking_bag }
      else service) =
      { service with
        available_bag := service.available_bag +
          (if booking.confirm = "pending" ∧ newStatus = "cancelled"
            then booking.booking_bag else 0) } := by
    rw [hc]
    by_cases hp : booking.confirm = "pending" ∧ newStatus = "cancelled"
    · rw [if_pos ⟨hp.1, by rw [hp.2]⟩, if_pos hp]
    · have hp2 : ¬(booking.confirm = "pending" ∧ some newStatus = some "cancelled") := by
        intro hcontra
        exact hp ⟨hcontra.1, Option.some.inj hcontra.2⟩
      rw [if_neg hp2, if_neg hp]
      simp
  have hmerge : mergeBookingConfirm booking body = { booking with confirm := newStatus } := by
    simp [mergeBookingConfirm, hc]
  have hb1 : getBooking
      { st with
        services :=
          idSet st.services booking.service
            { service with
              available_bag := service.available_bag +
                (if booking.confirm = "pending" ∧ newStatus = "cancelled"
                  then booking.booking_bag else 0) } }
      bid = some booking := hb
  have hrun : update_booking_status st host bid body =
      ({ st with
          services :=
            idSet st.services booking.service
              { service with
                available_bag := service.available_bag +
                  (if booking.confirm = "pending" ∧ newStatus = "cancelled"
                    then booking.booking_bag else 0) },
          bookings := idSet st.bookings bid { booking with confirm := newStatus } },
        .success { booking with confirm := newStatus }
          (service.available_bag +
            (if booking.confirm = "pending" ∧ newStatus = "cancelled"
              then booking.booking_bag else 0))) := by
    unfold update_booking_status
    rw [hb]
    simp only [hown, ne_eq, ne_self_iff_false, if_false]
    rw [hs]
    simp only [hsvc]
    rw [updateServiceFull_spec st booking.service _ service hs]
    rw [updateBookingConfirmWith_spec _ bid body booking hb1]
    simp only [hmerge]
    simp [hown]
  rw [hrun]
  refine ⟨?_, ?_, rfl⟩
  · exact getService_after_idSet st booking.service _ service hs
  · exact getBooking_after_idSet _ bid _ booking hb1

/-- Witness for C6 on the concrete store: cancelling the pending 2-bag
booking returns its bags, reporting 7 available. -/
theorem booking_status_capacity_return_witness :
    (update_booking_status fixtureBooked "client@gmail.com" 1 ⟨some "cancelled"⟩).2 =
      .success { fixtureBookingReq 2 with confirm := "cancelled" } 7 := by
  have h := booking_status_capacity_return fixtureBooked "client@gmail.com" 1 ⟨some "cancelled"⟩
      (fixtureBookingReq 2) fixtureService "cancelled" (by decide) (by decide) (by decide) rfl
  exact h.2.2.trans (by decide)

/-! ### Claim theorems on the token codec -/

/-- Claim C8: token verification checks in order — signature first (a token
signed with a different key fails as invalid regardless of its claims), then
presence of `expires` (absent fails with the 400 "No access token supplied"
malformed-token error), then expiry (`expires = now - 1` always fails with
the expired error, `expires = now + 3600` always passes the expiry check),
then the principal lookup; every failure is an `error` result carrying no
claims. -/
theorem verify_token_check_order
    (hosts : List HostDoc) (payload : TokenPayload) (t : Token) (now : Int)
    (hbad : t.signingKey ≠ settingsSecretKey) :
    verify_host_access_token hosts t now = .error .invalidJWT ∧
    (payload.expires = none →
      verify_host_access_token hosts (jwtEncode payload settingsSecretKey) now =
        .error .noTokenSupplied) ∧
    (payload.expires = some (now - 1) →
      verify_host_access_token hosts (jwtEncode payload settingsSecretKey) now =
        .error .tokenExpired) ∧
    (payload.expires = some (now + 3600) →
      verify_host_access_token hosts (jwtEncode payload settingsSecretKey) now ≠
        .error .tokenExpired ∧
      (∀ u, payload.user = some u → hostEmailExists hosts u = true →
        verify_host_access_token hosts (jwtEncode payload settingsSecretKey) now =
          .ok payload)) := by
  refine ⟨?_, ?_, ?_, ?_⟩
  · simp [verify_host_access_token, verify_access_token_with, jwtDecode,
      beq_false_of_ne hbad]
  · intro he
    simp [verify_host_access_token, verify_access_token_with, jwtDecode, jwtEncode, he]
  · intro he
    simp [verify_host_access_token, verify_access_token_with, jwtDecode, jwtEncode, he,
      show now - 1 < now by omega]
  · intro he
    constructor
    · simp [verify_host_access_token, verify_access_token_with, jwtDecode, jwtEncode, he,
        show ¬(now + 3600 < now) by omega]
      rcases hu : payload.user with _ | u
      · simp [hu]
      · by_cases hex : hostEmailExists hosts u <;> simp [hu, hex]
    · intro u hu hex
      simp [verify_host_access_token, verify_access_token_with, jwtDecode, jwtEncode, he,
        hu, hex, show ¬(now > now + 3600) by omega]

/-- Witness for C8: a token signed with the wrong key is rejected as invalid
before any other check. -/
theorem verify_token_check_order_witness :
    verify_host_access_token [⟨"host@gmail.com", "pw", "host"⟩]
      (jwtEncode ⟨some "host@gmail.com", some 500⟩ "wrong-key") 100 =
      .error .invalidJWT := by
  have h := verify_token_check_order [⟨"host@gmail.com", "pw", "host"⟩]
      ⟨some "host@gmail.com", some 500⟩
      (jwtEncode ⟨some "host@gmail.com", some 500⟩ "wrong-key") 100 (by decide)
  exact h.1

/-- Claim C9: decoding a freshly encoded access token for subject S with the
matching verify function, before its one-hour expiry and with S present in
the principal collection, returns the claim set whose `user` claim is S. -/
theorem token_roundtrip_subject (hosts : List HostDoc) (S : String) (now tnow : Int)
    (hhost : hostEmailExists hosts S = true)
    (hfresh : ¬ tnow > now + 3600) :
    verify_host_access_token hosts (create_access_token S now) tnow =
      .ok { user := some S, expires := some (now + 3600) } ∧
    ({ user := some S, expires := some (now + 3600) } : TokenPayload).user = some S := by
  refine ⟨?_, rfl⟩
  simp [verify_host_access_token, verify_access_token_with, create_access_token,
    jwtEncode, jwtDecode, hhost, hfresh]

/-- Witness for C9: the round trip at a concrete subject, key and clock. -/
theorem token_roundtrip_subject_witness :
    verify_host_access_token [⟨"host@gmail.com", "pw", "host"⟩]
      (create_access_token "host@gmail.com" 1000) 2000 =
      .ok ⟨some "host@gmail.com", some 4600⟩ := by
  have h := token_roundtrip_subject [⟨"host@gmail.com", "pw", "host"⟩]
      "host@gmail.com" 1000 2000 (by decide) (by decide)
  exact h.1.trans (by norm_num)

/-! ### Scenario theorems exhibiting the divergences (C1, C2, C4, C10) -/

/-- Claim C1 (divergence): on a Service with 5 available bags, a 6-bag
request is rejected for capacity, but a 3-bag request — which the claim says
succeeds and decrements the Service — persists the booking and then crashes
with the unhandled `AttributeError` (`result` is the `None` returned by
`Database.save`), leaving the stored Service untouched: `available_bag`
stays 5 and its bookings list stays empty. -/
theorem create_booking_crashes_after_save :
    (create_booking fixtureDB "client@gmail.com" (fixtureBookingReq 6)).2 =
      .capacityExceeded ∧
    (create_booking fixtureDB "client@gmail.com" (fixtureBookingReq 3)).2 =
      .attributeError ∧
    getService (create_booking fixtureDB "client@gmail.com" (fixtureBookingReq 3)).1 0 =
      some fixtureService ∧
    getBooking (create_booking fixtureDB "client@gmail.com" (fixtureBookingReq 3)).1 1 =
      some (fixtureBookingReq 3) := by
  decide

/-- Claim C2 (divergence): from `available_bag = 5`, the 5-bag create does
not succeed — it persists the booking and crashes, leaving `available_bag`
at 5; the follow-up 1-bag create is then not rejected for capacity (and
crashes the same way); deleting the persisted booking afterwards sets
`available_bag` to 10, not back to 5. -/
theorem capacity_scenario_diverges :
    (create_booking fixtureDB "client@gmail.com" (fixtureBookingReq 5)).2 =
      .attributeError ∧
    getService (create_booking fixtureDB "client@gmail.com" (fixtureBookingReq 5)).1 0 =
      some fixtureService ∧
    (create_booking (create_booking fixtureDB "client@gmail.com" (fixtureBookingReq 5)).1
        "client@gmail.com" (fixtureBookingReq 1)).2 ≠ .capacityExceeded ∧
    (create_booking (create_booking fixtureDB "client@gmail.com" (fixtureBookingReq 5)).1
        "client@gmail.com" (fixtureBookingReq 1)).2 = .attributeError ∧
    (delete_booking_bag (create_booking fixtureDB "client@gmail.com" (fixtureBookingReq 5)).1
        "client@gmail.com" 1).2 = .success 10 ∧
    (getService (delete_booking_bag
        (create_booking fixtureDB "client@gmail.com" (fixtureBookingReq 5)).1
        "client@gmail.com" 1).1 0).map Service.available_bag = some 10 := by
  decide

/-- Claim C4 (divergence): `update_booking_status` compares the Host's email
against `booking.creator` — the Client who made the booking — instead of the
parent Service's creator: the Host who owns the parent Service
("host@gmail.com") is rejected with the not-allowed error, while a principal
whose email equals the booking's Client creator ("client@gmail.com") passes
the check and updates the booking despite not owning the Service. -/
theorem booking_status_ownership_miscompares :
    fixtureService.creator = "host@gmail.com" ∧
    (fixtureBookingReq 2).creator = "client@gmail.com" ∧
    (update_booking_status fixtureBooked "host@gmail.com" 1 ⟨some "confirmed"⟩).2 =
      .notAllowed ∧
    (update_booking_status fixtureBooked "client@gmail.com" 1 ⟨some "confirmed"⟩).2 =
      .success { fixtureBookingReq 2 with confirm := "confirmed" } 5 := by
  decide

/-- Claim C10 (divergence): a signup with a fresh email persists the host
(with the hashed password) but then crashes with the unhandled
`AttributeError` (`result.dict()` on the `None` returned by `Database.save`)
instead of returning the created message; a second signup with the same
email does return the 409 conflict and leaves the collection unchanged. -/
theorem host_signup_crashes_after_save :
    (sign_new_host_up ⟨[], 0⟩ ⟨"host@gmail.com", "1234", "host"⟩).2 =
      .attributeError ∧
    findHostByEmail (sign_new_host_up ⟨[], 0⟩ ⟨"host@gmail.com", "1234", "host"⟩).1
      "host@gmail.com" = some ⟨"host@gmail.com", create_hash "1234", "host"⟩ ∧
    (sign_new_host_up (sign_new_host_up ⟨[], 0⟩ ⟨"host@gmail.com", "1234", "host"⟩).1
        ⟨"host@gmail.com", "1234", "host"⟩).2 = .conflict ∧
    (sign_new_host_up (sign_new_host_up ⟨[], 0⟩ ⟨"host@gmail.com", "1234", "host"⟩).1
        ⟨"host@gmail.com", "1234", "host"⟩).1 =
      (sign_new_host_up ⟨[], 0⟩ ⟨"host@gmail.com", "1234", "host"⟩).1 := by
  decide

end JimGaBang
